import Mathlib

/-!
Shallow embedding of the soul-stm32wle5-flashalgo repository
(src/external/soul-flashalgo/src/lib.rs and src/src/main.rs).

The `algorithm!` macro of lib.rs generates, for one algorithm type, two
process-wide statics (`_IS_INIT : bool`, `_ALGO_INSTANCE : MaybeUninit<T>`),
the C-ABI entry points `Init`, `UnInit`, `EraseSector`, `ProgramPage`,
`EraseChip` (feature `erase-chip`), `Verify` (feature `verify`), and two
statically initialized descriptors (`FlashDevice`, `SelfTestMetadata`).

Modelling choices:
- the two statics become an explicit state record `AlgoState`;
  `_ALGO_INSTANCE` is `Option A` (`none` = storage holds no live value);
- the trait `FlashAlgorithm` becomes a record of pure functions; a
  `&mut self` method returns the result together with the updated instance;
- `ErrorCode = NonZeroU32` becomes the subtype of non-zero naturals, and
  `e.get()` becomes `e.val`;
- an entry point either returns a `u32` code with the next state (`ret`),
  hits the undefined-instruction trap of the panic handler (`trap`), or
  runs into undefined behaviour (`ub`: dereferencing or dropping the
  uninitialized `MaybeUninit` storage);
- for destructor/constructor ordering observability (a counting mock, as the
  spec suggests), the state carries a ghost event log: an `Event.ctor` is
  appended exactly when `<T as FlashAlgorithm>::new` is invoked, an
  `Event.dtor` exactly when `drop_in_place` runs;
- raw `*const u8` buffers enter the model as the byte view the pointer
  denotes: for `ProgramPage` the `size`-byte slice, for `Verify` an
  `Option (List Nat)` whose `none` is the null pointer.
-/

namespace SoulFlash

/-- Ghost observability event: a constructor invocation or a destructor run. -/
inductive Event where
  | ctor
  | dtor
deriving DecidableEq, Repr

/-- Function selector enum of lib.rs lines 87-92: Erase = 1, Program = 2, Verify = 3. -/
inductive Function where
  | Erase
  | Program
  | Verify
deriving DecidableEq, Repr

/-- Error code: lib.rs line 28, `pub type ErrorCode = core::num::NonZeroU32`; a
value that is non-zero by construction. -/
def ErrorCode : Type := { e : Nat // e ≠ 0 }

instance : DecidableEq ErrorCode := fun a b =>
  decidable_of_iff (a.val = b.val) Subtype.ext_iff.symm

/-- Trait `FlashAlgorithm` of lib.rs lines 43-85, as a record of pure
functions for one concrete algorithm type `A`. A method taking `&mut self`
returns its `Result` paired with the updated instance. -/
structure FlashAlgorithm (A : Type) where
  new : Nat → Nat → Function → Except ErrorCode A
  erase_all : A → Except ErrorCode Unit × A
  erase_sector : A → Nat → Except ErrorCode Unit × A
  program_page : A → Nat → List Nat → Except ErrorCode Unit × A
  verify : A → Nat → Nat → Option (List Nat) → Except ErrorCode Unit × A

/-- The process-wide statics generated by the macro (lib.rs lines 117-118):
`_IS_INIT : bool` and `_ALGO_INSTANCE : MaybeUninit<T>` (`none` = the storage
holds no live value), plus the ghost ctor/dtor event log. -/
structure AlgoState (A : Type) where
  IS_INIT : Bool
  ALGO_INSTANCE : Option A
  log : List Event
deriving DecidableEq, Repr

/-- Outcome of one entry-point call: a returned `u32` code with the next
state, the undefined-instruction trap taken by the panic handler
(lib.rs lines 15-22), or undefined behaviour on the uninitialized storage. -/
inductive EntryOut (A : Type) where
  | ret (code : Nat) (s : AlgoState A)
  | trap (s : AlgoState A)
  | ub
deriving DecidableEq, Repr

/-- Decode of the raw `function` argument in `Init` (lib.rs lines 127-132);
`none` is the wildcard arm, which panics. -/
def decode_function (f : Nat) : Option Function :=
  match f with
  | 1 => some Function.Erase
  | 2 => some Function.Program
  | 3 => some Function.Verify
  | _ => none

/-- Entry `UnInit` (lib.rs lines 144-151): if `!_IS_INIT` return 1; otherwise
`drop_in_place` the instance (undefined behaviour if the storage holds no
live value), clear `_IS_INIT`, return 0. -/
def UnInit {A : Type} (s : AlgoState A) : EntryOut A :=
  if !s.IS_INIT then .ret 1 s
  else
    match s.ALGO_INSTANCE with
    | none => .ub
    | some _ =>
        .ret 0 { s with IS_INIT := false, ALGO_INSTANCE := none,
                        log := s.log ++ [Event.dtor] }

/-- Body of `Init` after the initial `if _IS_INIT { UnInit(); }` step
(lib.rs lines 126-140): set `_IS_INIT = true`, decode `function` (unknown
selector panics into the trap), invoke the constructor; on `Ok` write the
instance and set `_IS_INIT = true` again, returning 0; on `Err(e)` return
`e.get()` with the flag left as it is. -/
def init_core {A : Type} (cap : FlashAlgorithm A) (addr clock function : Nat)
    (s1 : AlgoState A) : EntryOut A :=
  let s2 := { s1 with IS_INIT := true }
  match decode_function function with
  | none => .trap s2
  | some f =>
      let s3 := { s2 with log := s2.log ++ [Event.ctor] }
      match cap.new addr clock f with
      | .ok inst => .ret 0 { s3 with ALGO_INSTANCE := some inst, IS_INIT := true }
      | .error e => .ret e.val s3

/-- Entry `Init` (lib.rs lines 122-141): if `_IS_INIT` call `UnInit()` first
(result discarded), then run the body `init_core`. -/
def Init {A : Type} (cap : FlashAlgorithm A) (addr clock function : Nat)
    (s : AlgoState A) : EntryOut A :=
  match (if s.IS_INIT then UnInit s else .ret 0 s) with
  | .ret _ s1 => init_core cap addr clock function s1
  | .trap s1 => .trap s1
  | .ub => .ub

/-- Entry `EraseSector` (lib.rs lines 154-163): return 1 when not
initialized; otherwise borrow the instance (undefined behaviour if no live
value) and translate the capability result to `0 / e.get()`. -/
def EraseSector {A : Type} (cap : FlashAlgorithm A) (addr : Nat)
    (s : AlgoState A) : EntryOut A :=
  if !s.IS_INIT then .ret 1 s
  else
    match s.ALGO_INSTANCE with
    | none => .ub
    | some a =>
        match cap.erase_sector a addr with
        | (.ok _, a1) => .ret 0 { s with ALGO_INSTANCE := some a1 }
        | (.error e, a1) => .ret e.val { s with ALGO_INSTANCE := some a1 }

/-- Entry `ProgramPage` (lib.rs lines 166-176): return 1 when not
initialized; otherwise form the `size`-byte view `data` of the raw pointer
and translate the capability result. -/
def ProgramPage {A : Type} (cap : FlashAlgorithm A) (addr size : Nat)
    (data : List Nat) (s : AlgoState A) : EntryOut A :=
  if !s.IS_INIT then .ret 1 s
  else
    match s.ALGO_INSTANCE with
    | none => .ub
    | some a =>
        match cap.program_page a addr data with
        | (.ok _, a1) => .ret 0 { s with ALGO_INSTANCE := some a1 }
        | (.error e, a1) => .ret e.val { s with ALGO_INSTANCE := some a1 }

/-- Entry `EraseChip` (feature `erase-chip`, lib.rs lines 294-303). -/
def EraseChip {A : Type} (cap : FlashAlgorithm A) (s : AlgoState A) :
    EntryOut A :=
  if !s.IS_INIT then .ret 1 s
  else
    match s.ALGO_INSTANCE with
    | none => .ub
    | some a =>
        match cap.erase_all a with
        | (.ok _, a1) => .ret 0 { s with ALGO_INSTANCE := some a1 }
        | (.error e, a1) => .ret e.val { s with ALGO_INSTANCE := some a1 }

/-- Entry `Verify` (feature `verify`, lib.rs lines 320-338): return 1 when
not initialized; a null `data` pointer (`none`) dispatches to the capability
with `None`, a non-null pointer passes `Some` of the `size`-byte view. -/
def Verify {A : Type} (cap : FlashAlgorithm A) (addr size : Nat)
    (data : Option (List Nat)) (s : AlgoState A) : EntryOut A :=
  if !s.IS_INIT then .ret 1 s
  else
    match s.ALGO_INSTANCE with
    | none => .ub
    | some a =>
        match data with
        | none =>
            match cap.verify a addr size none with
            | (.ok _, a1) => .ret 0 { s with ALGO_INSTANCE := some a1 }
            | (.error e, a1) => .ret e.val { s with ALGO_INSTANCE := some a1 }
        | some buf =>
            match cap.verify a addr size (some buf) with
            | (.ok _, a1) => .ret 0 { s with ALGO_INSTANCE := some a1 }
            | (.error e, a1) => .ret e.val { s with ALGO_INSTANCE := some a1 }

/-- Loop body of `assign_name` (lib.rs lines 35-39): `while i < name_len
{ ans[i] = arr[i]; i += 1; }`. -/
def assign_name_loop (arr ans : List Nat) (name_len i : Nat) : List Nat :=
  if i < name_len then
    assign_name_loop arr (ans.set i (arr.getD i 0)) name_len (i + 1)
  else ans
termination_by name_len - i
decreasing_by omega

/-- Compile-time helper `assign_name::<OPT_LEN>` (lib.rs lines 30-41): assert
`name.len() <= OPT_LEN` (a failing assert aborts the constant evaluation,
modelled as `none`), start from an all-zero array and copy the name bytes
into its front. -/
def assign_name (OPT_LEN : Nat) (name : List Nat) : Option (List Nat) :=
  let name_len := name.length
  if name_len ≤ OPT_LEN then
    some (assign_name_loop name (List.replicate OPT_LEN 0) name_len 0)
  else none

/-- Flash sector entry `{size, address}` (lib.rs lines 272-277). -/
structure FlashSector where
  size : Nat
  address : Nat
deriving DecidableEq, Repr

/-- Terminating sector sentinel written by the macro (lib.rs lines 210-213). -/
def sector_sentinel : FlashSector :=
  { size := 0xffffffff, address := 0xffffffff }

/-- The `flash_sectors` field emitted by the macro (lib.rs lines 202-214):
the authored `{size, address}` pairs in order, then the sentinel. -/
def mk_flash_sectors (sectors : List FlashSector) : List FlashSector :=
  sectors ++ [sector_sentinel]

/-- Struct `FlashDeviceDescription` (lib.rs lines 241-254); `[u8; 128]` and
the sector array become lists. -/
structure FlashDeviceDescription where
  vers : Nat
  dev_name : List Nat
  dev_type : Nat
  dev_addr : Nat
  device_size : Nat
  page_size : Nat
  reserved : Nat
  empty : Nat
  program_time_out : Nat
  erase_time_out : Nat
  flash_sectors : List FlashSector
deriving DecidableEq, Repr

/-- The static `FlashDevice` the macro emits (lib.rs lines 184-215), as a
function of the macro arguments; `none` when `assign_name` would fail the
build on an over-long target name (W = 128). -/
def mk_FlashDevice (target_name : List Nat)
    (flash_address flash_size page_size empty_value : Nat)
    (sectors : List FlashSector) : Option FlashDeviceDescription :=
  match assign_name 128 target_name with
  | none => none
  | some nm =>
      some { vers := 0x0
             dev_name := nm
             dev_type := 5
             dev_addr := flash_address
             device_size := flash_size
             page_size := page_size
             reserved := 0
             empty := empty_value
             program_time_out := 1000
             erase_time_out := 2000
             flash_sectors := mk_flash_sectors sectors }

/-- Self-test item `{id, name}` (lib.rs lines 256-260), packed. -/
structure SelfTestItem where
  id : Nat
  name : List Nat
deriving DecidableEq, Repr

/-- Terminating self-test sentinel written by the macro (lib.rs lines
234-237): `{id = 0xffff_ffff, name = [0xff; 32]}`. -/
def test_sentinel : SelfTestItem :=
  { id := 0xffffffff, name := List.replicate 32 0xff }

/-- Authored items of the `test_items` array (lib.rs lines 226-232): one
`SelfTestItem` per authored `(test_id, test_name)` pair with the name put
through `assign_name` (W = 32); `none` when a name would fail the build. -/
def mk_test_items : List (Nat × List Nat) → Option (List SelfTestItem)
  | [] => some []
  | (tid, tname) :: rest =>
      match assign_name 32 tname, mk_test_items rest with
      | some nm, some items => some ({ id := tid, name := nm } :: items)
      | _, _ => none

/-- Struct `SelfTestDescription` (lib.rs lines 262-269), packed; field order
follows the struct declaration. -/
structure SelfTestDescription where
  magic : Nat
  ram_start_addr : Nat
  ram_end_addr : Nat
  test_cnt : Nat
  test_items : List SelfTestItem
deriving DecidableEq, Repr

/-- The static `SelfTestMetadata` the macro emits (lib.rs lines 221-239):
magic `0x536f_756c`, `test_cnt` = `count!` of the authored ids, the RAM
window, and the authored items followed by the sentinel. -/
def mk_SelfTestMetadata (ram_start_addr ram_end_addr : Nat)
    (self_tests : List (Nat × List Nat)) : Option SelfTestDescription :=
  match mk_test_items self_tests with
  | none => none
  | some items =>
      some { magic := 0x536f756c
             ram_start_addr := ram_start_addr
             ram_end_addr := ram_end_addr
             test_cnt := self_tests.length
             test_items := items ++ [test_sentinel] }

/-- Little-endian in-memory byte order of a `u32` field of the packed
descriptors on the Cortex-M target: least significant byte first. -/
def u32_le_bytes (n : Nat) : List Nat :=
  [n % 256, n / 256 % 256, n / 256 / 256 % 256, n / 256 / 256 / 256 % 256]

/-- Slot preservation predicate used for the operational entries: the next
state keeps the `_IS_INIT` flag and the occupancy of the instance storage;
vacuous on undefined behaviour. -/
def preserves_slot {A : Type} (s : AlgoState A) : EntryOut A → Prop
  | .ret _ s1 => s1.IS_INIT = s.IS_INIT ∧
      s1.ALGO_INSTANCE.isSome = s.ALGO_INSTANCE.isSome
  | .trap s1 => s1.IS_INIT = s.IS_INIT ∧
      s1.ALGO_INSTANCE.isSome = s.ALGO_INSTANCE.isSome
  | .ub => True

/-- Fresh image state: both statics as initialized by the macro
(lib.rs lines 117-118), empty ghost log. -/
def fresh : AlgoState Nat :=
  { IS_INIT := false, ALGO_INSTANCE := none, log := [] }

/-- Mock capability whose constructor and operations all succeed, the
instance being a bare counter value. -/
def okCap : FlashAlgorithm Nat :=
  { new := fun _ _ _ => .ok 0
    erase_all := fun a => (.ok (), a)
    erase_sector := fun a _ => (.ok (), a)
    program_page := fun a _ _ => (.ok (), a)
    verify := fun a _ _ _ => (.ok (), a) }

/-- Mock capability whose constructor fails with error code 0x70D0 (spec
scenario S3); operations as in `okCap`. -/
def errCap : FlashAlgorithm Nat :=
  { okCap with new := fun _ _ _ => .error ⟨0x70d0, by decide⟩ }

/-- State actually reached by the code after `Init` on a fresh image with a
failing constructor: flag still set, storage without a live value. -/
def init_fail_state : AlgoState Nat :=
  { IS_INIT := true, ALGO_INSTANCE := none, log := [Event.ctor] }

/-- Target name bytes of main.rs line 10, the ASCII of the stm32wle5 name. -/
def stm32_name : List Nat :=
  [0x73, 0x74, 0x6d, 0x33, 0x32, 0x77, 0x6c, 0x65, 0x35]

/-- The `FlashDevice` value for the main.rs configuration (one authored
sector of size 0x400 at address 0), spelled out. -/
def fd0 : FlashDeviceDescription :=
  { vers := 0x0
    dev_name := stm32_name ++ List.replicate 119 0
    dev_type := 5
    dev_addr := 0x08000000
    device_size := 0x40000
    page_size := 0x400
    reserved := 0
    empty := 0xff
    program_time_out := 1000
    erase_time_out := 2000
    flash_sectors := [{ size := 0x400, address := 0x0 }, sector_sentinel] }

/-- Name bytes of the single authored self-test of main.rs line 25. -/
def test_name0 : List Nat := [0x74, 0x65, 0x73, 0x74]

/-- The `SelfTestMetadata` value for the main.rs configuration (one authored
item with id 1), spelled out. -/
def d0 : SelfTestDescription :=
  { magic := 0x536f756c
    ram_start_addr := 0x20000000
    ram_end_addr := 0x20010000
    test_cnt := 1
    test_items := [{ id := 1, name := test_name0 ++ List.replicate 28 0 },
                   test_sentinel] }

theorem take_set_succ (l : List Nat) (i : Nat) (x : Nat) (h : i < l.length) :
    (l.set i x).take (i + 1) = l.take i ++ [x] := by
  induction l generalizing i with
  | nil => simp at h
  | cons y ys ih =>
    cases i with
    | zero => simp
    | succ j =>
      simp only [List.set, List.take, List.cons_append]
      rw [ih j (by simpa using h)]

theorem assign_name_loop_eq (arr : List Nat) (n : Nat) (hn : n = arr.length) :
    ∀ k i ans, i + k = n → n ≤ ans.length →
      assign_name_loop arr ans n i = ans.take i ++ arr.drop i ++ ans.drop n := by
  intro k
  induction k with
  | zero =>
    intro i ans hi hle
    have hin : i = n := by omega
    rw [assign_name_loop]
    simp only [hin, Nat.lt_irrefl, if_false]
    subst hn
    rw [List.drop_length, List.append_nil, List.take_append_drop]
  | succ k ih =>
    intro i ans hi hle
    have hlt : i < n := by omega
    have harr : i < arr.length := by omega
    have hans : i < ans.length := by omega
    rw [assign_name_loop]
    simp only [hlt, if_true]
    rw [ih (i + 1) (ans.set i (arr.getD i 0)) (by omega) (by simpa)]
    rw [take_set_succ ans i _ hans, List.drop_set_of_lt _ _ hlt,
        List.getD_eq_getElem arr 0 harr, List.drop_eq_getElem_cons harr]
    simp [List.append_assoc]

/-- C6: for every byte string s and width W with |s| ≤ W, `assign_name W s`
produces the W-byte array whose first |s| bytes are s and whose remaining
W − |s| bytes are 0x00; when |s| > W the assertion fires and the constant
evaluation (hence the build) fails, modelled as `none`. -/
theorem assign_name_pads_with_zeros (W : Nat) (s : List Nat) :
    assign_name W s =
      if s.length ≤ W then some (s ++ List.replicate (W - s.length) 0)
      else none := by
  by_cases h : s.length ≤ W
  · simp only [assign_name, h, if_true]
    rw [assign_name_loop_eq s s.length rfl s.length 0 (List.replicate W 0)
          (by omega) (by simp [h])]
    simp
  · simp [assign_name, h]

theorem init_core_ret_zero {A : Type} (cap : FlashAlgorithm A)
    (addr clock f : Nat) (s1 sr : AlgoState A)
    (h : init_core cap addr clock f s1 = .ret 0 sr) :
    sr.IS_INIT = true ∧ (∃ a, sr.ALGO_INSTANCE = some a) ∧
      sr.log = s1.log ++ [Event.ctor] := by
  simp only [init_core] at h
  cases hd : decode_function f with
  | none => simp [hd] at h
  | some fn =>
    simp only [hd] at h
    cases hn : cap.new addr clock fn with
    | ok inst =>
      simp only [hn] at h
      cases h
      exact ⟨rfl, ⟨inst, rfl⟩, rfl⟩
    | error e =>
      simp only [hn] at h
      injection h with h1 h2
      exact absurd h1 e.property

theorem Init_ret_zero {A : Type} (cap : FlashAlgorithm A)
    (addr clock f : Nat) (s sr : AlgoState A)
    (h : Init cap addr clock f s = .ret 0 sr) :
    sr.IS_INIT = true ∧ (∃ a, sr.ALGO_INSTANCE = some a) ∧
      ((s.IS_INIT = false ∧ sr.log = s.log ++ [Event.ctor]) ∨
       (s.IS_INIT = true ∧ sr.log = s.log ++ [Event.dtor, Event.ctor])) := by
  simp only [Init] at h
  cases hI : s.IS_INIT
  · rw [hI] at h
    simp only [if_false, Bool.false_eq_true] at h
    obtain ⟨h1, h2, h3⟩ := init_core_ret_zero cap addr clock f s sr h
    exact ⟨h1, h2, Or.inl ⟨rfl, h3⟩⟩
  · rw [hI] at h
    simp only [if_true] at h
    cases hA : s.ALGO_INSTANCE with
    | none => rw [UnInit, hA, hI] at h; simp at h
    | some a =>
      rw [UnInit, hA, hI] at h
      simp only [Bool.not_true, Bool.false_eq_true, if_false] at h
      obtain ⟨h1, h2, h3⟩ := init_core_ret_zero cap addr clock f _ sr h
      refine ⟨h1, h2, Or.inr ⟨rfl, ?_⟩⟩
      rw [h3]
      simp

/-- C1: on a fresh image, a constructor failing with 0x70D0 makes `Init`
return exactly 0x70D0, but the code leaves `_IS_INIT` set (lib.rs line 126 is
never undone in the `Err` branch) while the storage holds no live value, so
the subsequent `EraseSector` dereferences the uninitialized slot (undefined
behaviour) instead of returning 1 as the spec demands. -/
theorem init_error_flag_left_set :
    Init errCap 0 0 1 fresh = .ret 0x70d0 init_fail_state ∧
    init_fail_state.IS_INIT = true ∧
    init_fail_state.ALGO_INSTANCE = none ∧
    EraseSector errCap 0x08000000 init_fail_state = .ub := by
  decide

/-- C2: in any state whose `_IS_INIT` flag is clear (in particular a fresh
image), each of EraseSector, ProgramPage, EraseChip, Verify and UnInit
returns 1 and leaves the state unchanged. -/
theorem pre_init_guard {A : Type} (cap : FlashAlgorithm A)
    (addr size : Nat) (data : List Nat) (buf : Option (List Nat))
    (s : AlgoState A) (h : s.IS_INIT = false) :
    EraseSector cap addr s = .ret 1 s ∧
    ProgramPage cap addr size data s = .ret 1 s ∧
    EraseChip cap s = .ret 1 s ∧
    Verify cap addr size buf s = .ret 1 s ∧
    UnInit s = .ret 1 s := by
  refine ⟨?_, ?_, ?_, ?_, ?_⟩ <;>
    simp [EraseSector, ProgramPage, EraseChip, Verify, UnInit, h]

/-- C2 witness: the guard on a fresh image with the all-ok mock. -/
theorem pre_init_guard_witness :
    EraseSector okCap 0x08000000 fresh = .ret 1 fresh ∧
    ProgramPage okCap 0x08000000 4 [0xde, 0xad, 0xbe, 0xef] fresh = .ret 1 fresh ∧
    EraseChip okCap fresh = .ret 1 fresh ∧
    Verify okCap 0x08000000 4 none fresh = .ret 1 fresh ∧
    UnInit fresh = .ret 1 fresh :=
  pre_init_guard okCap 0x08000000 4 [0xde, 0xad, 0xbe, 0xef] none fresh rfl

/-- C3: after any successful `Init`, `UnInit` returns 0, runs the destructor
(one `dtor` event appended) and leaves the slot uninitialized; a second
`UnInit` straight after returns 1. -/
theorem init_uninit_roundtrip {A : Type} (cap : FlashAlgorithm A)
    (addr clock f : Nat) (s s1 : AlgoState A)
    (h : Init cap addr clock f s = .ret 0 s1) :
    ∃ s2, UnInit s1 = .ret 0 s2 ∧ s2.IS_INIT = false ∧
      s2.ALGO_INSTANCE = none ∧ s2.log = s1.log ++ [Event.dtor] ∧
      UnInit s2 = .ret 1 s2 := by
  obtain ⟨hI, ⟨a, ha⟩, _⟩ := Init_ret_zero cap addr clock f s s1 h
  have hu : UnInit s1 =
      .ret 0 { s1 with IS_INIT := false, ALGO_INSTANCE := none, log := s1.log ++ [Event.dtor] } := by
    simp [UnInit, hI, ha]
  exact ⟨_, hu, rfl, rfl, rfl, by simp [UnInit]⟩

/-- C3 witness: the round-trip after the concrete successful
`Init(0x0800_0000, 0, 2)` on a fresh image with the all-ok mock. -/
theorem init_uninit_roundtrip_witness :
    ∃ s2, UnInit { IS_INIT := true, ALGO_INSTANCE := some 0,
                   log := [Event.ctor] } = .ret 0 s2 ∧
      s2.IS_INIT = false ∧ s2.ALGO_INSTANCE = none ∧
      s2.log = [Event.ctor] ++ [Event.dtor] ∧ UnInit s2 = .ret 1 s2 :=
  init_uninit_roundtrip okCap 0x08000000 0 2 fresh
    { IS_INIT := true, ALGO_INSTANCE := some 0, log := [Event.ctor] }
    (by decide)

/-- C4: starting from an uninitialized slot, two back-to-back `Init` calls
whose constructors both succeed produce the ghost event trace
ctor, dtor, ctor: the second `Init` destroys the first instance before
constructing the second, so when it returns exactly two constructions and
one destruction have occurred, in that order. -/
theorem reinit_two_ctors_one_dtor {A : Type} (cap : FlashAlgorithm A)
    (a1 c1 f1 a2 c2 f2 : Nat) (s s1 s2 : AlgoState A)
    (h0 : s.IS_INIT = false)
    (h1 : Init cap a1 c1 f1 s = .ret 0 s1)
    (h2 : Init cap a2 c2 f2 s1 = .ret 0 s2) :
    s1.log = s.log ++ [Event.ctor] ∧
    s2.log = s.log ++ [Event.ctor, Event.dtor, Event.ctor] := by
  obtain ⟨hI1, _, hlog1⟩ := Init_ret_zero cap a1 c1 f1 s s1 h1
  obtain ⟨_, _, hlog2⟩ := Init_ret_zero cap a2 c2 f2 s1 s2 h2
  rcases hlog1 with ⟨_, e1⟩ | ⟨hbad, _⟩
  · rcases hlog2 with ⟨hbad2, _⟩ | ⟨_, e2⟩
    · rw [hI1] at hbad2; cases hbad2
    · refine ⟨e1, ?_⟩
      rw [e2, e1]
      simp
  · rw [h0] at hbad; cases hbad

/-- C4 witness: the trace of two concrete successful `Init` calls on a fresh
image with the all-ok mock. -/
theorem reinit_two_ctors_one_dtor_witness :
    ({ IS_INIT := true, ALGO_INSTANCE := some 0,
       log := [Event.ctor] } : AlgoState Nat).log = [] ++ [Event.ctor] ∧
    ({ IS_INIT := true, ALGO_INSTANCE := some 0,
       log := [Event.ctor, Event.dtor, Event.ctor] } : AlgoState Nat).log =
      [] ++ [Event.ctor, Event.dtor, Event.ctor] :=
  reinit_two_ctors_one_dtor okCap 0x08000000 0 2 0x08000000 0 1 fresh
    { IS_INIT := true, ALGO_INSTANCE := some 0, log := [Event.ctor] }
    { IS_INIT := true, ALGO_INSTANCE := some 0,
      log := [Event.ctor, Event.dtor, Event.ctor] }
    rfl (by decide) (by decide)

/-- C5: in any state whose storage occupancy matches the flag, `Init` with a
function selector outside {1, 2, 3} reaches the undefined-instruction trap
and never invokes the constructor (no `ctor` event is added). -/
theorem unknown_function_traps {A : Type} (cap : FlashAlgorithm A)
    (addr clock f : Nat) (s : AlgoState A)
    (hwf : s.ALGO_INSTANCE.isSome = s.IS_INIT)
    (hf : decode_function f = none) :
    ∃ s1, Init cap addr clock f s = .trap s1 ∧
      s1.log.count Event.ctor = s.log.count Event.ctor := by
  cases hI : s.IS_INIT
  · refine ⟨{ s with IS_INIT := true }, ?_, rfl⟩
    simp [Init, hI, init_core, hf]
  · have ha : ∃ a, s.ALGO_INSTANCE = some a := by
      rw [hI] at hwf
      cases hA : s.ALGO_INSTANCE
      · rw [hA] at hwf; simp at hwf
      · exact ⟨_, rfl⟩
    obtain ⟨a, ha⟩ := ha
    have ht : Init cap addr clock f s =
        .trap { s with IS_INIT := true, ALGO_INSTANCE := none, log := s.log ++ [Event.dtor] } := by
      simp [Init, hI, UnInit, ha, init_core, hf]
    exact ⟨_, ht, by simp [List.count_append]⟩

/-- C5 witness: selector 0 on a fresh image with the all-ok mock traps with
no constructor invocation. -/
theorem unknown_function_traps_witness :
    ∃ s1, Init okCap 0x08000000 0 0 fresh = .trap s1 ∧
      s1.log.count Event.ctor = fresh.log.count Event.ctor :=
  unknown_function_traps okCap 0x08000000 0 0 fresh rfl rfl

/-- C7: for every non-empty authored sector list, the `flash_sectors` array
of the generated `FlashDevice` descriptor has length N + 1, its first N
elements are the authored pairs in order, and its final element is the
sentinel `{0xFFFF_FFFF, 0xFFFF_FFFF}`. -/
theorem flash_sectors_layout (target_name : List Nat)
    (flash_address flash_size page_size empty_value : Nat)
    (sectors : List FlashSector) (fd : FlashDeviceDescription)
    (hne : sectors ≠ [])
    (h : mk_FlashDevice target_name flash_address flash_size page_size
           empty_value sectors = some fd) :
    fd.flash_sectors.length = sectors.length + 1 ∧
    fd.flash_sectors.take sectors.length = sectors ∧
    fd.flash_sectors.getLast? = some sector_sentinel := by
  simp only [mk_FlashDevice] at h
  cases hn : assign_name 128 target_name with
  | none => rw [hn] at h; cases h
  | some nm =>
    rw [hn] at h
    cases h
    refine ⟨by simp [mk_flash_sectors], ?_, ?_⟩
    · simp only [mk_flash_sectors]
      rw [List.take_append_of_le_length (le_refl _), List.take_length]
    · simp [mk_flash_sectors]

/-- C7 witness: the stm32wle5 configuration of main.rs with its single
authored sector. -/
theorem flash_sectors_layout_witness :
    fd0.flash_sectors.length = 1 + 1 ∧
    fd0.flash_sectors.take 1 = [{ size := 0x400, address := 0x0 }] ∧
    fd0.flash_sectors.getLast? = some sector_sentinel := by
  have h := flash_sectors_layout stm32_name 0x08000000 0x40000 0x400 0xff
    [{ size := 0x400, address := 0x0 }] fd0
    (by simp)
    (by simp [mk_FlashDevice, assign_name, assign_name_loop, stm32_name, fd0,
              mk_flash_sectors, sector_sentinel])
  simpa using h

/-- C8: the generated `SelfTestMetadata` has magic 0x536F_756C, whose
little-endian byte image is 6C 75 6F 53, its `test_cnt` equals the number of
authored self-test items (sentinel excluded), and its `test_items` array
ends with the sentinel `{id = 0xFFFF_FFFF, name = [0xFF; 32]}`. -/
theorem selftest_metadata_layout (ram_start_addr ram_end_addr : Nat)
    (self_tests : List (Nat × List Nat)) (d : SelfTestDescription)
    (h : mk_SelfTestMetadata ram_start_addr ram_end_addr self_tests = some d) :
    d.magic = 0x536f756c ∧
    u32_le_bytes d.magic = [0x6c, 0x75, 0x6f, 0x53] ∧
    d.test_cnt = self_tests.length ∧
    d.test_items.getLast? = some test_sentinel := by
  simp only [mk_SelfTestMetadata] at h
  cases hi : mk_test_items self_tests with
  | none => rw [hi] at h; cases h
  | some items =>
    rw [hi] at h
    cases h
    exact ⟨rfl, by norm_num [u32_le_bytes], rfl, by simp⟩

/-- C8 witness: the stm32wle5 configuration of main.rs with its single
authored self-test item (id 1, its four-byte ASCII name). -/
theorem selftest_metadata_layout_witness :
    d0.magic = 0x536f756c ∧
    u32_le_bytes d0.magic = [0x6c, 0x75, 0x6f, 0x53] ∧
    d0.test_cnt = 1 ∧
    d0.test_items.getLast? = some test_sentinel := by
  have h := selftest_metadata_layout 0x20000000 0x20010000
    [(1, test_name0)] d0
    (by simp [mk_SelfTestMetadata, mk_test_items, assign_name,
              assign_name_loop, test_name0, d0])
  simpa using h

/-- C9: with the verify feature enabled and the slot initialized, `Verify`
with a null data pointer dispatches to the verify method of the capability with
the no-buffer argument `none` (never a view of the null pointer, so the
outcome is the plain 0 / error translation and never undefined behaviour),
and with a non-null pointer it passes `some` of the byte view. -/
theorem verify_null_dispatches_none {A : Type} (cap : FlashAlgorithm A)
    (addr size : Nat) (buf : List Nat) (s : AlgoState A) (a : A)
    (hI : s.IS_INIT = true) (ha : s.ALGO_INSTANCE = some a) :
    (Verify cap addr size none s =
       (match cap.verify a addr size none with
        | (.ok _, a1) => .ret 0 { s with ALGO_INSTANCE := some a1 }
        | (.error e, a1) => .ret e.val { s with ALGO_INSTANCE := some a1 }) ∧
     Verify cap addr size none s ≠ .ub) ∧
    Verify cap addr size (some buf) s =
      (match cap.verify a addr size (some buf) with
       | (.ok _, a1) => .ret 0 { s with ALGO_INSTANCE := some a1 }
       | (.error e, a1) => .ret e.val { s with ALGO_INSTANCE := some a1 }) := by
  refine ⟨⟨?_, ?_⟩, ?_⟩
  · simp only [Verify, hI, ha, Bool.not_true, Bool.false_eq_true, if_false]
  · simp only [Verify, hI, ha, Bool.not_true, Bool.false_eq_true, if_false]
    rcases cap.verify a addr size none with ⟨r, a1⟩
    cases r <;> simp
  · simp only [Verify, hI, ha, Bool.not_true, Bool.false_eq_true, if_false]

/-- C9 witness: a concrete initialized state with the all-ok mock, null and
non-null pointers. -/
theorem verify_null_dispatches_none_witness :
    (Verify okCap 0x08000000 4 none
         { IS_INIT := true, ALGO_INSTANCE := some 0, log := [Event.ctor] } =
       (match okCap.verify 0 0x08000000 4 none with
        | (.ok _, a1) => .ret 0 { IS_INIT := true, ALGO_INSTANCE := some a1,
                                  log := [Event.ctor] }
        | (.error e, a1) => .ret e.val { IS_INIT := true,
                                         ALGO_INSTANCE := some a1,
                                         log := [Event.ctor] }) ∧
     Verify okCap 0x08000000 4 none
         { IS_INIT := true, ALGO_INSTANCE := some 0, log := [Event.ctor] } ≠
       .ub) ∧
    Verify okCap 0x08000000 4 (some [0xde, 0xad, 0xbe, 0xef])
        { IS_INIT := true, ALGO_INSTANCE := some 0, log := [Event.ctor] } =
      (match okCap.verify 0 0x08000000 4 (some [0xde, 0xad, 0xbe, 0xef]) with
       | (.ok _, a1) => .ret 0 { IS_INIT := true, ALGO_INSTANCE := some a1,
                                 log := [Event.ctor] }
       | (.error e, a1) => .ret e.val { IS_INIT := true,
                                        ALGO_INSTANCE := some a1,
                                        log := [Event.ctor] }) :=
  verify_null_dispatches_none okCap 0x08000000 4 [0xde, 0xad, 0xbe, 0xef]
    { IS_INIT := true, ALGO_INSTANCE := some 0, log := [Event.ctor] } 0
    rfl rfl

/-- C10: the operational entries EraseSector, ProgramPage, EraseChip and
Verify leave the `_IS_INIT` flag and the occupancy of the instance storage
unchanged in every state and for every outcome (success, a capability error
code, or the not-initialized code 1); only `Init` and `UnInit` modify them. -/
theorem ops_preserve_slot {A : Type} (cap : FlashAlgorithm A)
    (addr size : Nat) (data : List Nat) (buf : Option (List Nat))
    (s : AlgoState A) :
    preserves_slot s (EraseSector cap addr s) ∧
    preserves_slot s (ProgramPage cap addr size data s) ∧
    preserves_slot s (EraseChip cap s) ∧
    preserves_slot s (Verify cap addr size buf s) := by
  refine ⟨?_, ?_, ?_, ?_⟩
  · unfold EraseSector
    cases hI : s.IS_INIT
    · simp [preserves_slot]
    · cases hA : s.ALGO_INSTANCE with
      | none => simp [preserves_slot]
      | some a =>
        rcases hc : cap.erase_sector a addr with ⟨r, a1⟩
        cases r <;> simp [preserves_slot, hc, hA, hI]
  · unfold ProgramPage
    cases hI : s.IS_INIT
    · simp [preserves_slot]
    · cases hA : s.ALGO_INSTANCE with
      | none => simp [preserves_slot]
      | some a =>
        rcases hc : cap.program_page a addr data with ⟨r, a1⟩
        cases r <;> simp [preserves_slot, hc, hA, hI]
  · unfold EraseChip
    cases hI : s.IS_INIT
    · simp [preserves_slot]
    · cases hA : s.ALGO_INSTANCE with
      | none => simp [preserves_slot]
      | some a =>
        rcases hc : cap.erase_all a with ⟨r, a1⟩
        cases r <;> simp [preserves_slot, hc, hA, hI]
  · unfold Verify
    cases hI : s.IS_INIT
    · simp [preserves_slot]
    · cases hA : s.ALGO_INSTANCE with
      | none => simp [preserves_slot]
      | some a =>
        cases buf with
        | none =>
          rcases hc : cap.verify a addr size none with ⟨r, a1⟩
          cases r <;> simp [preserves_slot, hc, hA, hI]
        | some b =>
          rcases hc : cap.verify a addr size (some b) with ⟨r, a1⟩
          cases r <;> simp [preserves_slot, hc, hA, hI]

end SoulFlash
